import Mathlib

/-
Shallow embedding of the DCA scheduling and swap-execution engine of the
smoothswap repository.

Sources embedded:
  * src/src/hooks/useDCA.ts        — scheduler state, frequency mapper,
    executeSingleSwap, startDCA / stopDCA, history and totals bookkeeping,
    token reconfiguration.
  * src/src/services/realSwapService.ts — validateRealSwap, the catch-phase
    fallback of executeRealSwap, enhancedSimulation.
  * src/src/config/constants.ts (tier table, default tokens).

Modelling conventions: JavaScript numbers and decimal strings that the code
parses with parseFloat are embedded as rationals (ℚ); Math.round is `round`
(⌊x + 1/2⌋, matching JS round-half-up); millisecond amounts are ℤ; thrown
errors are their message strings; external asynchronous collaborators
(executeRealSwap's router call, enhancedSimulation's random draws and price
fetch) enter as explicit parameters, so each embedded operation is a pure
state-transition function.  React state updates are modelled as taking
effect immediately (the single-logical-thread semantics of §5 of the spec).
-/

namespace SmoothSwap

/-- FrequencyTier from src/src/types/index.ts: 'days' | 'hours' | 'minutes' | 'seconds'. -/
inductive FrequencyTier where
  | days
  | hours
  | minutes
  | seconds
deriving DecidableEq, BEq

/-- Token from src/src/types/index.ts (fields the core uses; balance/fiatValue omitted as
they are never read by the engine). -/
structure Token where
  address : String
  symbol : String
  name : String
  decimals : ℕ
  image : Option String := none
deriving DecidableEq

/-- SliderTier from src/src/types/index.ts: a tier with an inclusive
[min, max] range in seconds. -/
structure SliderTier where
  tier : FrequencyTier
  min : ℚ
  max : ℚ
  label : String
deriving DecidableEq

/-- SLIDER_TIERS from src/src/config/constants.ts. -/
def SLIDER_TIERS : List SliderTier :=
  [ ⟨FrequencyTier.days, 86400, 2592000, "Days"⟩,
    ⟨FrequencyTier.hours, 3600, 86400, "Hours"⟩,
    ⟨FrequencyTier.minutes, 60, 3600, "Minutes"⟩,
    ⟨FrequencyTier.seconds, 1, 60, "Seconds"⟩ ]

/-- DEFAULT_SOURCE_TOKEN from src/src/config/constants.ts (BASE_TOKENS[0], USDC). -/
def DEFAULT_SOURCE_TOKEN : Token :=
  ⟨"0x833589fCD6eDb6E08f4c7C32D4f71b54bdA02913", "USDC", "USD Coin", 6, none⟩

/-- DEFAULT_TARGET_TOKEN from src/src/config/constants.ts (BASE_TOKENS[1], WETH). -/
def DEFAULT_TARGET_TOKEN : Token :=
  ⟨"0x4200000000000000000000000000000000000006", "ETH", "Ethereum", 18, none⟩

/-- calculateFrequency from src/src/hooks/useDCA.ts (lines 46-56): looks up the
tier, computes min + range * (1 - value/100) seconds, multiplies by 1000 and
applies Math.round; unknown tier falls back to 3600000 ms. -/
def calculateFrequency (value : ℚ) (tier : FrequencyTier) : ℤ :=
  match SLIDER_TIERS.find? (fun t => t.tier == tier) with
  | none => 3600000
  | some tierConfig =>
      let normalizedValue := value / 100
      let range := tierConfig.max - tierConfig.min
      let frequency := tierConfig.min + range * (1 - normalizedValue)
      round (frequency * 1000)

/-- SwapResult from src/src/types/index.ts, extended with the extra fields the
swap service attaches (isReal, isEnhancedSimulation, note).  Decimal-string
amounts are embedded as their parsed rational values. -/
structure SwapResult where
  success : Bool
  txHash : Option String := none
  error : Option String := none
  amountIn : ℚ
  amountOut : ℚ
  price : Option ℚ := none
  isReal : Option Bool := none
  isEnhancedSimulation : Option Bool := none
  note : Option String := none
deriving DecidableEq

/-- DCAConfig from src/src/types/index.ts. -/
structure DCAConfig where
  sourceToken : Token
  targetToken : Token
  frequency : ℤ
  percentage : ℚ
  isActive : Bool
  nextSwapIn : ℤ
deriving DecidableEq

/-- Scheduler state of the useDCA hook: the DCAConfig plus swapHistory,
totalSwapped, the in-flight guard isExecutingSwap, and whether the action
interval (intervalRef) and the countdown interval (countdownRef) are armed. -/
structure SchedState where
  config : DCAConfig
  swapHistory : List SwapResult
  totalSwapped : ℚ
  isExecutingSwap : Bool
  intervalArmed : Bool
  countdownArmed : Bool
deriving DecidableEq

/-- Initial hook state from src/src/hooks/useDCA.ts lines 12-25. -/
def initialState : SchedState :=
  { config :=
      { sourceToken := DEFAULT_SOURCE_TOKEN
        targetToken := DEFAULT_TARGET_TOKEN
        frequency := 3600000
        percentage := 1
        isActive := false
        nextSwapIn := 0 }
    swapHistory := []
    totalSwapped := 0
    isExecutingSwap := false
    intervalArmed := false
    countdownArmed := false }

/-- handleOnchainKitSwap from src/src/hooks/useDCA.ts (lines 28-40): prepend the
result keeping the previous first 9 entries, and on success add the parsed
amountIn to the running total. -/
def recordOutcome (s : SchedState) (result : SwapResult) : SchedState :=
  { s with
      swapHistory := result :: s.swapHistory.take 9
      totalSwapped :=
        if result.success then s.totalSwapped + result.amountIn else s.totalSwapped }

/-- Fold of recordOutcome over a list of outcomes, oldest first. -/
def recordMany (s : SchedState) (results : List SwapResult) : SchedState :=
  results.foldl recordOutcome s

/-- Sum of amountIn over the successful outcomes of a list. -/
def successTotal (results : List SwapResult) : ℚ :=
  ((results.filter fun r => r.success).map fun r => r.amountIn).sum

/-- A failure-shaped SwapResult as built inline in executeSingleSwap: success
false, the given error message, amountIn and amountOut both the string "0". -/
def swapFailure (msg : String) : SwapResult :=
  { success := false, error := some msg, amountIn := 0, amountOut := 0 }

/-- Decimal rendering of q with two fraction digits, as JS Number.toFixed(2)
(round half toward positive infinity on ties for the magnitudes used here). -/
def toFixed2 (q : ℚ) : String :=
  let n : ℤ := round (q * 100)
  let sign := if n < 0 then "-" else ""
  let m := n.natAbs
  sign ++ toString (m / 100) ++ "." ++ (if m % 100 < 10 then "0" else "") ++ toString (m % 100)

/-- Result shape of validateRealSwap: valid flag plus optional error string. -/
structure SwapValidation where
  valid : Bool
  error : Option String := none
deriving DecidableEq

/-- validateRealSwap from src/src/services/realSwapService.ts (lines 357-384),
with userBalance already parsed to a rational. -/
def validateRealSwap (sourceToken targetToken : Token) (amountUSD : ℚ)
    (userBalance : ℚ) : SwapValidation :=
  if amountUSD < 1/100 then
    { valid := false, error := some "Minimum swap amount is $0.01" }
  else if amountUSD > 10000 then
    { valid := false, error := some "Maximum swap amount is $10,000" }
  else if sourceToken.address = targetToken.address then
    { valid := false, error := some "Cannot swap token with itself" }
  else if userBalance < amountUSD then
    { valid := false
      error := some ("Insufficient balance. Have: $" ++ toFixed2 userBalance ++
        ", Need: $" ++ toFixed2 amountUSD) }
  else
    { valid := true }

/-- Result of one executeSingleSwap call: the returned SwapResult, the hook
state afterwards, and whether the external swap collaborator (executeRealSwap,
which performs the price fetches and the router submission) was invoked. -/
structure ExecResult where
  result : SwapResult
  state : SchedState
  externalCalled : Bool
deriving DecidableEq

/-- executeSingleSwap from src/src/hooks/useDCA.ts (lines 69-156).  The
balance string is passed already parsed (parseFloat(balance || add0)); the
outcome of the external call executeRealSwap — which itself never rejects —
enters as the parameter externalResult.  Every throw inside the try block is
caught by the catch block, which records and returns a failure result built
from the thrown message; the finally block clears the in-flight flag.  The
two early returns (guard, wallet) record nothing and leave the state as is. -/
def executeSingleSwap (s : SchedState) (address : Option String) (balance : ℚ)
    (externalResult : SwapResult) : ExecResult :=
  if s.isExecutingSwap then
    { result := swapFailure "Swap already in progress", state := s, externalCalled := false }
  else if address.isNone then
    { result := swapFailure "Wallet not connected or transaction function unavailable"
      state := s, externalCalled := false }
  else
    let currentBalance := balance
    if currentBalance = 0 then
      let r := swapFailure "Insufficient balance"
      { result := r, state := { recordOutcome s r with isExecutingSwap := false }
        externalCalled := false }
    else
      let swapAmount := currentBalance * (s.config.percentage / 100)
      if swapAmount < 1/100 then
        let r := swapFailure "Swap amount too small (minimum $0.01 for reliable execution)"
        { result := r, state := { recordOutcome s r with isExecutingSwap := false }
          externalCalled := false }
      else
        let validation := validateRealSwap s.config.sourceToken s.config.targetToken
          swapAmount currentBalance
        if !validation.valid then
          let r := swapFailure (validation.error.getD "Network error")
          { result := r, state := { recordOutcome s r with isExecutingSwap := false }
            externalCalled := false }
        else
          { result := externalResult
            state := { recordOutcome s externalResult with isExecutingSwap := false }
            externalCalled := true }

/-- startDCA from src/src/hooks/useDCA.ts (lines 184-205): no-op when already
active or when the parsed balance is exactly 0; otherwise sets isActive and
nextSwapIn := frequency and arms the countdown and action intervals.  No swap
attempt is performed at start time (the interval fires only later). -/
def startDCA (s : SchedState) (balance : ℚ) : SchedState :=
  if s.config.isActive then s
  else if balance = 0 then s
  else
    { s with
        config := { s.config with isActive := true, nextSwapIn := s.config.frequency }
        countdownArmed := true
        intervalArmed := true }

/-- stopDCA from src/src/hooks/useDCA.ts (lines 208-220): clears isActive and
nextSwapIn and cancels both intervals.  It does not touch the in-flight flag,
the history, or the totals. -/
def stopDCA (s : SchedState) : SchedState :=
  { s with
      config := { s.config with isActive := false, nextSwapIn := 0 }
      intervalArmed := false
      countdownArmed := false }

/-- updateTokens from src/src/hooks/useDCA.ts (lines 223-229). -/
def updateTokens (c : DCAConfig) (source target : Token) : DCAConfig :=
  { c with sourceToken := source, targetToken := target }

/-- swapTokens from src/src/hooks/useDCA.ts (lines 232-238): exchanges the
source and target tokens, spreading every other field from the previous
config. -/
def swapTokens (c : DCAConfig) : DCAConfig :=
  { c with sourceToken := c.targetToken, targetToken := c.sourceToken }

/-- updateTokens lifted to the hook state (setConfig touches only config). -/
def updateTokensState (s : SchedState) (source target : Token) : SchedState :=
  { s with config := updateTokens s.config source target }

/-- swapTokens lifted to the hook state (setConfig touches only config). -/
def swapTokensState (s : SchedState) : SchedState :=
  { s with config := swapTokens s.config }

/-- The frequency-recomputation effect of src/src/hooks/useDCA.ts lines 59-66:
whenever the slider value or tier changes, frequency is re-derived through
calculateFrequency and nextSwapIn becomes the new frequency when active, 0
when paused. -/
def applyFrequencyUpdate (s : SchedState) (sliderValue : ℚ)
    (tier : FrequencyTier) : SchedState :=
  let newFrequency := calculateFrequency sliderValue tier
  { s with
      config := { s.config with
        frequency := newFrequency
        nextSwapIn := if s.config.isActive then newFrequency else 0 } }

/-- One firing of the countdown interval (src/src/hooks/useDCA.ts lines
175-180): nextSwapIn decreases by 100 with a floor of 0. -/
def countdownTick (s : SchedState) : SchedState :=
  { s with config := { s.config with nextSwapIn := max 0 (s.config.nextSwapIn - 100) } }

/-- The prefix of a genuine swap attempt up to its suspension point: the call
has passed the in-flight guard of executeSingleSwap and awaits the external
swap, so isExecutingSwap is set (src/src/hooks/useDCA.ts line 88). -/
def attemptBegin (s : SchedState) : SchedState :=
  { s with isExecutingSwap := true }

/-- The continuation that runs when an in-flight attempt resolves with result
r: handleOnchainKitSwap records r (useDCA.ts line 132 on success, line 151 on
failure), the finally block clears isExecutingSwap (line 154), and runSwap's
continuation then unconditionally resets nextSwapIn to the current frequency
(line 201) — it does not consult isActive. -/
def attemptResolve (s : SchedState) (r : SwapResult) : SchedState :=
  let s1 := recordOutcome s r
  let s2 := { s1 with isExecutingSwap := false }
  { s2 with config := { s2.config with nextSwapIn := s2.config.frequency } }

/-- Substring containment on strings (the JS String.includes used by the
error classifier of realSwapService). -/
def strContains (s sub : String) : Bool :=
  (List.range (s.data.length + 1)).any fun i => sub.data.isPrefixOf (s.data.drop i)

/-- Lower-casing of a string (JS String.toLowerCase), written over the
character list so that it evaluates by kernel reduction. -/
def toLowerStr (s : String) : String :=
  String.mk (s.data.map Char.toLower)

/-- The error-message classification of executeRealSwap's catch block
(src/src/services/realSwapService.ts lines 276-288), on the thrown message. -/
def classifyError (msg : String) : String :=
  let m := toLowerStr msg
  if strContains m "insufficient" then "Insufficient balance or liquidity"
  else if strContains m "user rejected" || strContains m "user denied" then
    "Transaction rejected - please reconnect wallet"
  else if strContains m "network" || strContains m "fetch" then
    "Network error, please try again"
  else msg

/-- Error taxonomy of spec.md §7; a kind is assigned to a message by the same
case-insensitive substring matching the code uses. -/
inductive ErrorKind where
  | InsufficientFunds
  | UserRejected
  | NetworkError
  | Unknown
deriving DecidableEq

/-- Kind assigned to a failure message by spec.md §7's substring rules. -/
def classifyKind (msg : String) : ErrorKind :=
  let m := toLowerStr msg
  if strContains m "insufficient" then ErrorKind.InsufficientFunds
  else if strContains m "user rejected" || strContains m "user denied" then
    ErrorKind.UserRejected
  else if strContains m "network" || strContains m "fetch" then ErrorKind.NetworkError
  else ErrorKind.Unknown

/-- enhancedSimulation from src/src/services/realSwapService.ts (lines
309-354).  Its random draws and the fetched target price enter as parameters:
isSuccess is the 95% roll, slippage the draw from [0.001, 0.003), randHash
the random hash string.  getTokenPrice never rejects (it catches every error
and returns a fallback price), so the simulation itself never throws. -/
def enhancedSimulation (targetPrice : ℚ) (isSuccess : Bool) (slippage : ℚ)
    (randHash : String) (amountUSD : ℚ) : SwapResult :=
  if !isSuccess then
    { success := false
      error := some "Simulated network congestion"
      amountIn := amountUSD
      amountOut := 0 }
  else
    let effectivePrice := targetPrice * (1 - slippage)
    { success := true
      txHash := some randHash
      amountIn := amountUSD
      amountOut := amountUSD / effectivePrice
      price := some effectivePrice
      isReal := some false
      isEnhancedSimulation := some true
      note := some "🎭 Enhanced simulation - real swap infrastructure ready" }

/-- The catch phase of executeRealSwap (src/src/services/realSwapService.ts
lines 273-306): given the message of the error thrown by the try block, it
classifies the message, attempts the one fallback simulation (whose result or
failure enters as the parameter sim), overwrites the note of a delivered
simulation result, and on a fallback failure returns a failure outcome that
keeps the classified message, the original amountIn, amountOut 0, and no
txHash, price, tag or note. -/
def realSwapFallback (origMsg : String) (amountInUSD : ℚ)
    (sim : Except Unit SwapResult) : SwapResult :=
  let errorMessage := classifyError origMsg
  match sim with
  | Except.ok simulationResult =>
      { simulationResult with
          note := some ("Smart wallet swap failed: " ++ errorMessage ++ ". Showing simulation.") }
  | Except.error _ =>
      { success := false
        error := some errorMessage
        amountIn := amountInUSD
        amountOut := 0 }

/-! Helper lemmas shared by the claim theorems. -/

/-- Tier lookup for the seconds tier evaluates to the seconds entry. -/
lemma find_tier_seconds :
    SLIDER_TIERS.find? (fun t => t.tier == FrequencyTier.seconds) =
      some ⟨FrequencyTier.seconds, 1, 60, "Seconds"⟩ := rfl

/-- Tier lookup for the hours tier evaluates to the hours entry. -/
lemma find_tier_hours :
    SLIDER_TIERS.find? (fun t => t.tier == FrequencyTier.hours) =
      some ⟨FrequencyTier.hours, 3600, 86400, "Hours"⟩ := rfl

/-- C3: for every known tier the frequency mapper computes
min + (max - min) * (1 - controlValue/100) seconds (then converts to ms and
rounds), and on the seconds tier control value 0 maps to 60000 ms, 100 to
1000 ms, and 50 to 30500 ms. -/
theorem calculateFrequency_linear_inverted :
    (∀ (value : ℚ) (tier : FrequencyTier) (tierConfig : SliderTier),
        SLIDER_TIERS.find? (fun t => t.tier == tier) = some tierConfig →
        calculateFrequency value tier =
          round ((tierConfig.min + (tierConfig.max - tierConfig.min) * (1 - value / 100))
            * 1000)) ∧
    calculateFrequency 0 FrequencyTier.seconds = 60000 ∧
    calculateFrequency 100 FrequencyTier.seconds = 1000 ∧
    calculateFrequency 50 FrequencyTier.seconds = 30500 := by
  refine ⟨fun value tier tc h => by simp [calculateFrequency, h], ?_, ?_, ?_⟩
  all_goals
    unfold calculateFrequency
    rw [find_tier_seconds]
    simp only [round_eq]
    rw [Int.floor_eq_iff]
    norm_num

/-- Witness for C3: the formula conjunct applied to the seconds tier at
control value 0, with the tier-lookup hypothesis discharged by rfl. -/
theorem calculateFrequency_linear_inverted_witness :
    calculateFrequency 0 FrequencyTier.seconds =
      round ((((1 : ℚ)) + ((60 : ℚ) - 1) * (1 - 0 / 100)) * 1000) :=
  calculateFrequency_linear_inverted.1 0 FrequencyTier.seconds
    ⟨FrequencyTier.seconds, 1, 60, "Seconds"⟩ rfl

/-- C4 counterexample: at control value 50 on the seconds tier the mapper
returns 30500 ms, whose remainder modulo 1000 is 500, not 0 — the returned
millisecond value is not always an integer multiple of 1000, because the code
rounds frequency * 1000 (milliseconds), not the seconds value. -/
theorem calculateFrequency_not_thousand_multiple_cx :
    calculateFrequency 50 FrequencyTier.seconds = 30500 ∧
    calculateFrequency 50 FrequencyTier.seconds % 1000 = 500 ∧
    (500 : ℤ) ≠ 0 := by
  have h : calculateFrequency 50 FrequencyTier.seconds = 30500 := by
    unfold calculateFrequency
    rw [find_tier_seconds]
    simp only [round_eq]
    rw [Int.floor_eq_iff]
    norm_num
  exact ⟨h, by rw [h]; decide, by decide⟩

/-- C4 amended: the mapper converts the computed seconds value to
milliseconds first and then rounds to the nearest integer millisecond
(Math.round(frequency * 1000)); the result is an integer count of
milliseconds but not necessarily a multiple of 1000 (control value 50 on the
seconds tier yields 30500 ms). -/
theorem calculateFrequency_rounds_milliseconds :
    (∀ (value : ℚ) (tier : FrequencyTier) (tierConfig : SliderTier),
        SLIDER_TIERS.find? (fun t => t.tier == tier) = some tierConfig →
        calculateFrequency value tier =
          round ((tierConfig.min + (tierConfig.max - tierConfig.min) * (1 - value / 100))
            * 1000)) ∧
    calculateFrequency 50 FrequencyTier.seconds % 1000 = 500 := by
  refine ⟨fun value tier tc h => by simp [calculateFrequency, h], ?_⟩
  have h : calculateFrequency 50 FrequencyTier.seconds = 30500 := by
    unfold calculateFrequency
    rw [find_tier_seconds]
    simp only [round_eq]
    rw [Int.floor_eq_iff]
    norm_num
  rw [h]
  decide

/-- Witness for C4 amended: the rounding conjunct applied to the hours tier
at control value 100, with the tier-lookup hypothesis discharged by rfl. -/
theorem calculateFrequency_rounds_milliseconds_witness :
    calculateFrequency 100 FrequencyTier.hours =
      round ((((3600 : ℚ)) + ((86400 : ℚ) - 3600) * (1 - 100 / 100)) * 1000) :=
  calculateFrequency_rounds_milliseconds.1 100 FrequencyTier.hours
    ⟨FrequencyTier.hours, 3600, 86400, "Hours"⟩ rfl

/-- C10: swapTokens exchanges sourceToken and targetToken, leaves frequency,
percentage, isActive and nextSwapIn unchanged, and is an involution. -/
theorem swapTokens_involution (c : DCAConfig) :
    (swapTokens c).sourceToken = c.targetToken ∧
    (swapTokens c).targetToken = c.sourceToken ∧
    (swapTokens c).frequency = c.frequency ∧
    (swapTokens c).percentage = c.percentage ∧
    (swapTokens c).isActive = c.isActive ∧
    (swapTokens c).nextSwapIn = c.nextSwapIn ∧
    swapTokens (swapTokens c) = c :=
  ⟨rfl, rfl, rfl, rfl, rfl, rfl, rfl⟩

/-- C9: startDCA is a no-op when the scheduler is already active, and a no-op
when the parsed balance is 0 — the state (config, history, totals, timers)
is returned unchanged, so no timer is armed and no swap attempt happens. -/
theorem startDCA_guarded (s : SchedState) (balance : ℚ) :
    (s.config.isActive = true → startDCA s balance = s) ∧
    (balance = 0 → startDCA s balance = s) := by
  constructor
  · intro h
    simp [startDCA, h]
  · intro h
    simp [startDCA, h]

/-- Witness for C9: startDCA applied to an already-active state, and to the
paused initial state with balance 0, both hypotheses discharged concretely. -/
theorem startDCA_guarded_witness :
    startDCA { initialState with
      config := { initialState.config with isActive := true } } 50 =
      { initialState with config := { initialState.config with isActive := true } } ∧
    startDCA initialState 0 = initialState :=
  ⟨(startDCA_guarded { initialState with
      config := { initialState.config with isActive := true } } 50).1 rfl,
   (startDCA_guarded initialState 0).2 rfl⟩

/-- C2: when an attempt is outstanding (isExecutingSwap true) a new call to
executeSingleSwap returns the failure outcome "Swap already in progress",
does not invoke the external swap collaborator, and leaves the state
untouched; when no attempt is outstanding the guard is released (the
in-flight flag is false) once the call resolves, success or failure. -/
theorem executeSingleSwap_serialized (s : SchedState) (address : Option String)
    (balance : ℚ) (ext : SwapResult) :
    (s.isExecutingSwap = true →
      (executeSingleSwap s address balance ext).result =
        swapFailure "Swap already in progress" ∧
      (executeSingleSwap s address balance ext).externalCalled = false ∧
      (executeSingleSwap s address balance ext).state = s) ∧
    (s.isExecutingSwap = false →
      (executeSingleSwap s address balance ext).state.isExecutingSwap = false) := by
  constructor
  · intro h
    simp [executeSingleSwap, h]
  · intro h
    simp only [executeSingleSwap, h]
    split_ifs <;> simp [recordOutcome, h]

/-- Witness for C2: the guard rejection at a concrete in-flight state, and the
guard release at the concrete paused initial state. -/
theorem executeSingleSwap_serialized_witness :
    (executeSingleSwap { initialState with isExecutingSwap := true }
        (some "0xuser") 100 (swapFailure "x")).result =
      swapFailure "Swap already in progress" ∧
    (executeSingleSwap { initialState with isExecutingSwap := true }
        (some "0xuser") 100 (swapFailure "x")).externalCalled = false ∧
    (executeSingleSwap { initialState with isExecutingSwap := true }
        (some "0xuser") 100 (swapFailure "x")).state =
      { initialState with isExecutingSwap := true } ∧
    (executeSingleSwap initialState (some "0xuser") 0
        (swapFailure "x")).state.isExecutingSwap = false := by
  have h := (executeSingleSwap_serialized { initialState with isExecutingSwap := true }
    (some "0xuser") 100 (swapFailure "x")).1 rfl
  have h2 := (executeSingleSwap_serialized initialState
    (some "0xuser") 0 (swapFailure "x")).2 rfl
  exact ⟨h.1, h.2.1, h.2.2, h2⟩

/-- The state reached by: start with balance 100, an attempt passes the guard
and suspends at the external swap, stop() runs, then the attempt resolves
successfully.  Used to examine what runSwap leaves behind after a stop that
arrives mid-attempt. -/
def midFlightStopState : SchedState :=
  attemptResolve (stopDCA (attemptBegin (startDCA initialState 100)))
    { success := true, amountIn := 1, amountOut := 1 }

/-- C1 counterexample: when stop() runs between the start and the resolution
of an attempt, the resolved state has isActive false, the outcome recorded,
both tickers cancelled — but nextSwapIn is 3600000 (the frequency), not 0:
the completion handler of runSwap resets the countdown unconditionally, so
the stale-timer-guard part of the claim fails on this concrete execution. -/
theorem stop_midflight_countdown_reset_cx :
    midFlightStopState.config.isActive = false ∧
    midFlightStopState.intervalArmed = false ∧
    midFlightStopState.swapHistory.head? =
      some { success := true, amountIn := 1, amountOut := 1 } ∧
    midFlightStopState.config.nextSwapIn = 3600000 ∧
    midFlightStopState.config.nextSwapIn ≠ 0 := by
  have h : midFlightStopState =
      { config :=
          { sourceToken := DEFAULT_SOURCE_TOKEN
            targetToken := DEFAULT_TARGET_TOKEN
            frequency := 3600000
            percentage := 1
            isActive := false
            nextSwapIn := 3600000 }
        swapHistory := [{ success := true, amountIn := 1, amountOut := 1 }]
        totalSwapped := 0 + 1
        isExecutingSwap := false
        intervalArmed := false
        countdownArmed := false } := by
    unfold midFlightStopState startDCA
    norm_num [initialState, attemptBegin, stopDCA, attemptResolve, recordOutcome]
  rw [h]
  refine ⟨rfl, rfl, rfl, rfl, by decide⟩

/-- C1 amended: if stop() is called while an attempt is in flight, the state
after the attempt resolves has isActive false, both tickers cancelled (so no
new attempt fires), and the outcome at the head of the history — but
nextSwapIn is reset to the configured frequency, not left at 0, because the
completion handler resets the countdown value without consulting isActive. -/
theorem stop_midflight_outcome_kept_no_reschedule (s : SchedState) (r : SwapResult) :
    (attemptResolve (stopDCA s) r).config.isActive = false ∧
    (attemptResolve (stopDCA s) r).intervalArmed = false ∧
    (attemptResolve (stopDCA s) r).countdownArmed = false ∧
    (attemptResolve (stopDCA s) r).swapHistory.head? = some r ∧
    (attemptResolve (stopDCA s) r).isExecutingSwap = false ∧
    (attemptResolve (stopDCA s) r).config.nextSwapIn = s.config.frequency :=
  ⟨rfl, rfl, rfl, rfl, rfl, rfl⟩

/-- A scheduler state whose source and target tokens carry the same address,
with everything else as in the initial state. -/
def sameTokenState : SchedState :=
  { initialState with
      config := { initialState.config with
        sourceToken := ⟨"0xSAMEADDR", "AAA", "Token A", 18, none⟩
        targetToken := ⟨"0xSAMEADDR", "BBB", "Token B", 18, none⟩ } }

/-- C5 counterexample: with identical source and target addresses and balance
0.5 (swap amount 0.005), the attempt fails with the amount-too-small reason,
not with "Cannot swap token with itself" — so not every attempt against an
identical pair fails with the token-identity validation reason. -/
theorem identical_tokens_other_reason_cx :
    (executeSingleSwap sameTokenState (some "0xuser") (1/2)
        (swapFailure "x")).result.error =
      some "Swap amount too small (minimum $0.01 for reliable execution)" ∧
    (executeSingleSwap sameTokenState (some "0xuser") (1/2)
        (swapFailure "x")).result.success = false ∧
    (executeSingleSwap sameTokenState (some "0xuser") (1/2)
        (swapFailure "x")).externalCalled = false ∧
    some "Swap amount too small (minimum $0.01 for reliable execution)" ≠
      some "Cannot swap token with itself" := by
  have h : executeSingleSwap sameTokenState (some "0xuser") (1/2) (swapFailure "x") =
      { result := swapFailure "Swap amount too small (minimum $0.01 for reliable execution)"
        state := { recordOutcome sameTokenState
          (swapFailure "Swap amount too small (minimum $0.01 for reliable execution)") with
            isExecutingSwap := false }
        externalCalled := false } := by
    unfold executeSingleSwap
    norm_num [sameTokenState, initialState]
  rw [h]
  exact ⟨rfl, rfl, rfl, by decide⟩

/-- C5 amended: whenever source and target share one address, every attempt
fails (success false) with no external swap invocation; the failure reason is
"Cannot swap token with itself" whenever the attempt passes the in-flight
guard, the wallet check, the nonzero-balance check and the amount-size checks
(amount within [$0.01, $10,000]); earlier precondition failures report their
own reasons instead. -/
theorem identical_tokens_no_external_call (s : SchedState) (address : Option String)
    (balance : ℚ) (ext : SwapResult)
    (hsame : s.config.sourceToken.address = s.config.targetToken.address) :
    (executeSingleSwap s address balance ext).result.success = false ∧
    (executeSingleSwap s address balance ext).externalCalled = false ∧
    (s.isExecutingSwap = false → address.isSome = true → balance ≠ 0 →
      1/100 ≤ balance * (s.config.percentage / 100) →
      balance * (s.config.percentage / 100) ≤ 10000 →
      (executeSingleSwap s address balance ext).result.error =
        some "Cannot swap token with itself") := by
  have hval : ∀ amt bal : ℚ, (validateRealSwap s.config.sourceToken
      s.config.targetToken amt bal).valid = false := by
    intro amt bal
    unfold validateRealSwap
    split_ifs <;> simp_all
  refine ⟨?_, ?_, ?_⟩
  · simp only [executeSingleSwap]
    split_ifs with h1 h2 h3 h4 h5
    · rfl
    · rfl
    · rfl
    · rfl
    · rfl
    · exact absurd (hval _ _) (by simpa using h5)
  · simp only [executeSingleSwap]
    split_ifs with h1 h2 h3 h4 h5
    · rfl
    · rfl
    · rfl
    · rfl
    · rfl
    · exact absurd (hval _ _) (by simpa using h5)
  · intro hexec haddr hbal hmin hmax
    simp only [executeSingleSwap]
    split_ifs with h1 h2 h3 h4
    · exact absurd h1 (by simp [hexec])
    · exact absurd h2 (by cases address <;> simp_all)
    · exact absurd h3 (not_lt.mpr hmin)
    · have herr : (validateRealSwap s.config.sourceToken s.config.targetToken
          (balance * (s.config.percentage / 100)) balance).error =
            some "Cannot swap token with itself" := by
        unfold validateRealSwap
        rw [if_neg (not_lt.mpr hmin), if_neg (not_lt.mpr hmax), if_pos hsame]
      simp [swapFailure, herr]
    · exact absurd (hval _ _) (by simpa using h4)

/-- Witness for C5 amended: the identical-address state at balance 100 —
every hypothesis discharged concretely; the attempt fails with the
token-identity reason and no external call. -/
theorem identical_tokens_no_external_call_witness :
    (executeSingleSwap sameTokenState (some "0xuser") 100
        (swapFailure "x")).result.success = false ∧
    (executeSingleSwap sameTokenState (some "0xuser") 100
        (swapFailure "x")).externalCalled = false ∧
    (executeSingleSwap sameTokenState (some "0xuser") 100
        (swapFailure "x")).result.error = some "Cannot swap token with itself" := by
  have h := identical_tokens_no_external_call sameTokenState (some "0xuser") 100
    (swapFailure "x") rfl
  refine ⟨h.1, h.2.1, h.2.2 rfl rfl (by norm_num) ?_ ?_⟩
  · show (1 : ℚ)/100 ≤ 100 * (sameTokenState.config.percentage / 100)
    norm_num [sameTokenState, initialState]
  · show (100 : ℚ) * (sameTokenState.config.percentage / 100) ≤ 10000
    norm_num [sameTokenState, initialState]

/-- Recording one outcome yields a history of length min (previous + 1) 10. -/
lemma recordOutcome_history_length (s : SchedState) (r : SwapResult) :
    (recordOutcome s r).swapHistory.length = min (s.swapHistory.length + 1) 10 := by
  simp only [recordOutcome, List.length_cons, List.length_take]
  omega

/-- Folding recordOutcome keeps the history length at min (initial + count) 10
as long as the starting history is within the bound. -/
lemma recordMany_history_length (rs : List SwapResult) :
    ∀ s : SchedState, s.swapHistory.length ≤ 10 →
      (recordMany s rs).swapHistory.length = min (s.swapHistory.length + rs.length) 10 := by
  induction rs with
  | nil =>
      intro s h
      simp only [recordMany, List.foldl_nil, List.length_nil]
      omega
  | cons r rs ih =>
      intro s h
      have hstep := recordOutcome_history_length s r
      have hs : (recordOutcome s r).swapHistory.length ≤ 10 := by omega
      have := ih (recordOutcome s r) hs
      simp only [recordMany, List.foldl_cons] at this ⊢
      rw [this, hstep]
      simp only [List.length_cons]
      omega

/-- After a nonempty fold of recordOutcome, the head of the history is the
last outcome recorded. -/
lemma recordMany_history_head (rs : List SwapResult) :
    ∀ s : SchedState, rs ≠ [] →
      (recordMany s rs).swapHistory.head? = rs.getLast? := by
  induction rs with
  | nil =>
      intro s h
      exact absurd rfl h
  | cons r rs ih =>
      intro s _
      cases rs with
      | nil => rfl
      | cons r2 rs2 =>
          have step : recordMany s (r :: r2 :: rs2) =
              recordMany (recordOutcome s r) (r2 :: rs2) := rfl
          rw [step, ih (recordOutcome s r) (by simp), List.getLast?_cons_cons]

/-- C6: the history is newest-first and bounded by 10 — recording prepends
the outcome (it becomes head) and keeps at most 10 entries; starting from an
empty history, recording 12 outcomes leaves exactly 10 entries with the most
recently recorded outcome at history[0]. -/
theorem history_bounded_newest_first :
    (∀ (s : SchedState) (r : SwapResult),
        (recordOutcome s r).swapHistory.head? = some r ∧
        (recordOutcome s r).swapHistory.length = min (s.swapHistory.length + 1) 10) ∧
    (∀ (rs : List SwapResult) (s : SchedState),
        s.swapHistory = [] → rs.length = 12 →
        (recordMany s rs).swapHistory.length = 10 ∧
        (recordMany s rs).swapHistory.head? = rs.getLast?) := by
  constructor
  · exact fun s r => ⟨rfl, recordOutcome_history_length s r⟩
  · intro rs s h0 h12
    constructor
    · rw [recordMany_history_length rs s (by simp [h0])]
      simp [h0, h12]
    · exact recordMany_history_head rs s (by rintro rfl; simp at h12)

/-- Witness for C6: twelve concrete recorded outcomes on the initial (empty)
history — length exactly 10 and head equal to the last outcome recorded. -/
theorem history_bounded_newest_first_witness :
    (List.replicate 12 (swapFailure "w")).length = 12 ∧
    (recordMany initialState (List.replicate 12 (swapFailure "w"))).swapHistory.length = 10 ∧
    (recordMany initialState
        (List.replicate 12 (swapFailure "w"))).swapHistory.head? =
      (List.replicate 12 (swapFailure "w")).getLast? := by
  have h := history_bounded_newest_first.2 (List.replicate 12 (swapFailure "w"))
    initialState rfl rfl
  exact ⟨rfl, h.1, h.2⟩

/-- Folding recordOutcome adds exactly the successful amounts to the total. -/
lemma recordMany_totalSwapped (rs : List SwapResult) :
    ∀ s : SchedState, (recordMany s rs).totalSwapped = s.totalSwapped + successTotal rs := by
  induction rs with
  | nil =>
      intro s
      simp [recordMany, successTotal]
  | cons r rs ih =>
      intro s
      have step : recordMany s (r :: rs) = recordMany (recordOutcome s r) rs := rfl
      rw [step, ih (recordOutcome s r)]
      by_cases hr : r.success = true
      · simp [recordOutcome, successTotal, hr, List.filter_cons]
        ring
      · simp [recordOutcome, successTotal, hr, List.filter_cons]

/-- C7: the running total is exactly the sum of amountIn over the successful
recorded outcomes — a failed outcome leaves it unchanged, a successful one
adds its amountIn, and start, stop, token updates, token swap and frequency
reconfiguration never change it; recording success $5, failure $3, success $2
on the fresh state yields a total of 7. -/
theorem totalSwapped_sums_successes :
    (∀ (s : SchedState) (rs : List SwapResult),
        (recordMany s rs).totalSwapped = s.totalSwapped + successTotal rs) ∧
    (∀ (s : SchedState) (r : SwapResult),
        (recordOutcome s r).totalSwapped =
          if r.success = true then s.totalSwapped + r.amountIn else s.totalSwapped) ∧
    (∀ (s : SchedState) (balance : ℚ), (startDCA s balance).totalSwapped = s.totalSwapped) ∧
    (∀ s : SchedState, (stopDCA s).totalSwapped = s.totalSwapped) ∧
    (∀ (s : SchedState) (source target : Token),
        (updateTokensState s source target).totalSwapped = s.totalSwapped) ∧
    (∀ s : SchedState, (swapTokensState s).totalSwapped = s.totalSwapped) ∧
    (∀ (s : SchedState) (v : ℚ) (t : FrequencyTier),
        (applyFrequencyUpdate s v t).totalSwapped = s.totalSwapped) ∧
    (recordMany initialState
        [ { success := true, amountIn := 5, amountOut := 0 },
          { success := false, amountIn := 3, amountOut := 0 },
          { success := true, amountIn := 2, amountOut := 0 } ]).totalSwapped = 7 := by
  refine ⟨fun s rs => recordMany_totalSwapped rs s, fun s r => rfl,
    fun s balance => ?_, fun s => rfl, fun s source target => rfl, fun s => rfl,
    fun s v t => rfl, ?_⟩
  · simp only [startDCA]
    split_ifs <;> rfl
  · simp [recordMany, recordOutcome, initialState]
    norm_num

/-- C8 counterexample: the real swap throws "insufficient funds" and the
fallback simulation also fails — the returned failure carries the classified
message "Insufficient balance or liquidity", whose §7 classification is
InsufficientFunds, not Unknown as the claim states. -/
theorem fallback_throw_classified_cx :
    (realSwapFallback "insufficient funds" 5 (Except.error ())).success = false ∧
    (realSwapFallback "insufficient funds" 5 (Except.error ())).error =
      some "Insufficient balance or liquidity" ∧
    classifyKind "Insufficient balance or liquidity" = ErrorKind.InsufficientFunds ∧
    ErrorKind.InsufficientFunds ≠ ErrorKind.Unknown := by
  refine ⟨rfl, by decide, by decide, by decide⟩

/-- C8 amended: on a thrown real swap the executor attempts exactly one
fallback; a delivered simulation result is returned with its note overwritten
to explain the real failure (and the simulation never tags itself real:
isReal is some false on simulated success, absent on simulated failure); if
the fallback itself throws, the executor returns a failure outcome that keeps
the classified message of the original error (its errorKind is that
classification, not always Unknown), the original amountIn, amountOut 0, and
no txHash, price, tag or note. -/
theorem realSwapFallback_one_fallback (origMsg : String) (amountInUSD : ℚ)
    (r : SwapResult) :
    realSwapFallback origMsg amountInUSD (Except.ok r) =
      { r with note := some ("Smart wallet swap failed: " ++ classifyError origMsg ++
          ". Showing simulation.") } ∧
    realSwapFallback origMsg amountInUSD (Except.error ()) =
      { success := false, error := some (classifyError origMsg),
        amountIn := amountInUSD, amountOut := 0 } ∧
    (∀ (targetPrice slippage : ℚ) (ok : Bool) (hash : String),
        (enhancedSimulation targetPrice ok slippage hash amountInUSD).isReal =
          if ok = true then some false else none) ∧
    (∀ (targetPrice slippage : ℚ) (ok : Bool) (hash : String),
        (enhancedSimulation targetPrice ok slippage hash amountInUSD).success = ok) := by
  refine ⟨rfl, rfl, ?_, ?_⟩
  · intro targetPrice slippage ok hash
    cases ok <;> rfl
  · intro targetPrice slippage ok hash
    cases ok <;> rfl

end SmoothSwap
